import Mathlib

/-!
Shallow embedding of src/nautilus-server/src/nautilus-server/src/apps/myanimelist/mod.rs
(the MyAnimeList attested-oracle endpoint): a TTL freshness cache, an upstream
fetch with per-field defaulting, and intent signing.

Machine words: the Rust u64/i64/u128 values here never overflow on any path the
claims touch (timestamps, TTL arithmetic), so they are modelled as Nat/Int; the
one place i64 range matters (serde_json as_i64) carries the explicit range check.
Floating point: the f64 rating is only carried through, never computed with, so
it is modelled as a rational number.
-/

namespace MalOracle

/-- Rust str::trim, modelled structurally on the character list: drop
whitespace characters from both ends. (Lean's builtin String.trim is defined
by well-founded recursion on byte positions and does not evaluate inside the
kernel, so this structural version is used throughout; it computes the same
string on the whitespace the claims touch.) -/
def rustTrim (s : String) : String :=
  ⟨((s.data.dropWhile Char.isWhitespace).reverse.dropWhile Char.isWhitespace).reverse⟩

/-- Rust str::to_lowercase, modelled character-wise with ASCII case folding
(the Unicode special cases are irrelevant to the claims). -/
def rustLower (s : String) : String := ⟨s.data.map Char.toLower⟩

/-- Rust str::is_empty. -/
def strIsEmpty (s : String) : Bool := s.data.isEmpty

/-- A serde_json number: an integer-valued number (serde PosInt/NegInt) or a
float-valued number, the float modelled as a rational since no arithmetic is
ever performed on it. -/
inductive JNum where
  | int (i : Int)
  | float (q : Rat)
deriving Repr

/-- A serde_json::Value. -/
inductive Json where
  | null
  | bool (b : Bool)
  | num (n : JNum)
  | str (s : String)
  | arr (elems : List Json)
  | obj (fields : List (String × Json))
deriving Repr

/-- Value::get with a string key: field lookup on an object, None on any other
variant (serde_json object keys are unique, so first match is the match). -/
def Json.getKey : Json → String → Option Json
  | .obj fields, k => (fields.find? (fun p => p.1 == k)).map (fun p => p.2)
  | _, _ => none

/-- Value::get with a usize index: element lookup on an array, None otherwise. -/
def Json.getIdx : Json → Nat → Option Json
  | .arr elems, i => elems.get? i
  | _, _ => none

/-- Value::as_f64: any JSON number converts; anything else is None. -/
def Json.asF64 : Json → Option Rat
  | .num (.int i) => some (i : Rat)
  | .num (.float q) => some q
  | _ => none

/-- Value::as_i64: integer-valued numbers within i64 range only (a float is
None even when integral, matching serde_json). -/
def Json.asI64 : Json → Option Int
  | .num (.int i) => if -(2 ^ 63) ≤ i ∧ i < 2 ^ 63 then some i else none
  | _ => none

/-- Value::as_str. -/
def Json.asStr : Json → Option String
  | .str s => some s
  | _ => none

/-- struct MyMetrics (mod.rs lines 18-25). -/
structure MyMetrics where
  title : String
  external_average_rating : Rat
  external_popularity_rank : Int
  external_member_count : Int
  queried_name : String
deriving Repr, DecidableEq

/-- struct MyAnimeRequest (mod.rs lines 27-30). -/
structure MyAnimeRequest where
  name : String
deriving Repr

/-- Modelled from the spec: ProcessDataRequest from crate::common (not under
src/), a wrapper carrying the payload of the inbound request. -/
structure ProcessDataRequest (T : Type) where
  payload : T
deriving Repr

/-- Modelled from the spec: IntentScope from crate::common (not under src/),
the enum tag identifying the purpose of a signed message. Only the
ProcessData scope is used by this endpoint. -/
inductive IntentScope where
  | ProcessData
deriving Repr, DecidableEq

/-- Modelled from the spec: IntentMessage from crate::common (not under src/):
scope plus timestamp in milliseconds plus payload. -/
structure IntentMessage (T : Type) where
  intent : IntentScope
  timestamp_ms : Nat
  data : T
deriving Repr, DecidableEq

/-- Modelled from the spec: ProcessedDataResponse from crate::common (not
under src/): the signed envelope, a response message plus signature bytes.
The signature is represented as a Json value standing for the byte string. -/
structure ProcessedDataResponse (T : Type) where
  response : T
  signature : Json
deriving Repr

/-- EnclaveError (crate-level, not under src/): every error surfaced by
process_data is EnclaveError::GenericError with a message string. -/
inductive EnclaveError where
  | GenericError (msg : String)
deriving Repr

/-- AppState: only the ephemeral signing keypair matters here; the key
material is modelled as an opaque Nat. -/
structure AppState where
  eph_kp : Nat
deriving Repr

/-- const CACHE_TTL_SECS: u64 = 300 (mod.rs line 32). -/
def CACHE_TTL_SECS : Nat := 300

/-- The CACHE static: a map from cache key to (stored_at seconds, serialized
envelope), modelled as an association list with unique keys maintained by
insert. -/
def Cache := List (String × Nat × Json)

/-- HashMap::get on the cache. -/
def Cache.get : Cache → String → Option (Nat × Json)
  | [], _ => none
  | (k, e) :: rest, key => if k == key then some e else Cache.get rest key

/-- HashMap::insert on the cache: the new binding shadows and drops any prior
binding for the same key. -/
def Cache.insert (c : Cache) (key : String) (e : Nat × Json) : Cache :=
  (key, e) :: c.filter (fun p => p.1 != key)

/-- Removal of one key, used only to state that a stale entry is treated as
absent by lookup. -/
def Cache.eraseKey (c : Cache) (key : String) : Cache :=
  c.filter (fun p => p.1 != key)

/-- Modelled from the spec: the canonical serialization of a full
IntentMessage (scope, then timestamp, then payload) that the signer signs —
never the payload alone. Represented as a Json value standing for the
canonical byte string. -/
def serializeIntentMessage (m : IntentMessage MyMetrics) : Json :=
  .obj [("intent", .str "ProcessData"),
        ("timestamp_ms", .num (.int (m.timestamp_ms : Int))),
        ("data", .obj [("title", .str m.data.title),
                       ("external_average_rating", .num (.float m.data.external_average_rating)),
                       ("external_popularity_rank", .num (.int m.data.external_popularity_rank)),
                       ("external_member_count", .num (.int m.data.external_member_count)),
                       ("queried_name", .str m.data.queried_name)])]

/-- Modelled from the spec: the enclave signature as a pure function of the
private key and the canonically serialized message (a deterministic stand-in
for the ed25519 signature bytes). -/
def signBytes (kp : Nat) (msg : Json) : Json :=
  .arr [.num (.int (kp : Int)), msg]

/-- Modelled from the spec: to_signed_response from crate::common (not under
src/): wraps the payload with the scope and timestamp into an IntentMessage
and signs the canonical serialization of that full message. -/
def to_signed_response (kp : Nat) (payload : MyMetrics) (timestamp_ms : Nat)
    (scope : IntentScope) : ProcessedDataResponse (IntentMessage MyMetrics) :=
  let msg : IntentMessage MyMetrics := ⟨scope, timestamp_ms, payload⟩
  ⟨msg, signBytes kp (serializeIntentMessage msg)⟩

/-- serde_json::to_value of the signed envelope (mod.rs line 120); the field
layout mirrors the structures above. -/
def serializeResponse (s : ProcessedDataResponse (IntentMessage MyMetrics)) : Json :=
  .obj [("response", serializeIntentMessage s.response),
        ("signature", s.signature)]

/-- serde_json::from_value back into MyMetrics (part of the cache
deserialization on mod.rs line 55). -/
def deserializeMetrics (j : Json) : Option MyMetrics := do
  let title ← (j.getKey "title").bind Json.asStr
  let rating ← (j.getKey "external_average_rating").bind Json.asF64
  let rank ← match (j.getKey "external_popularity_rank") with
             | some (.num (.int i)) => some i
             | _ => none
  let members ← match (j.getKey "external_member_count") with
                | some (.num (.int i)) => some i
                | _ => none
  let qname ← (j.getKey "queried_name").bind Json.asStr
  pure ⟨title, rating, rank, members, qname⟩

/-- serde_json::from_value back into IntentMessage MyMetrics. -/
def deserializeIntentMessage (j : Json) : Option (IntentMessage MyMetrics) := do
  let _ ← match (j.getKey "intent") with
          | some (.str "ProcessData") => some IntentScope.ProcessData
          | _ => none
  let ts ← match (j.getKey "timestamp_ms") with
           | some (.num (.int i)) => if 0 ≤ i then some i.toNat else none
           | _ => none
  let data ← (j.getKey "data").bind deserializeMetrics
  pure ⟨.ProcessData, ts, data⟩

/-- serde_json::from_value back into the signed envelope (mod.rs line 55). -/
def deserializeResponse (j : Json) : Option (ProcessedDataResponse (IntentMessage MyMetrics)) := do
  let resp ← (j.getKey "response").bind deserializeIntentMessage
  let sig ← j.getKey "signature"
  pure ⟨resp, sig⟩

/-- The upstream interaction as process_data observes it: either the send
itself fails (transport error), or a response arrives with a status code and
a body that either parses as JSON or does not. -/
inductive UpstreamResult where
  | sendError (msg : String)
  | response (status : Nat) (body : Option Json)
deriving Repr

/-- The ambient environment of one call: whether MAL_API_URL parses as a URL,
and the outcome of the upstream HTTP interaction. -/
structure Env where
  urlOk : Bool
  upstream : UpstreamResult
deriving Repr

/-- reqwest StatusCode::is_success: 200..=299. -/
def statusIsSuccess (s : Nat) : Bool := 200 ≤ s && s < 300

/-- The result of one process_data call: the returned value or error, the
cache after the call, and whether an upstream request respectively a signing
operation was performed. -/
structure StepResult where
  output : Except EnclaveError (ProcessedDataResponse (IntentMessage MyMetrics))
  cache : Cache
  fetched : Bool
  didSign : Bool

/-- The cache key computed on mod.rs line 47: the mal namespace, then the
trimmed query lower-cased. -/
def cache_key (raw : String) : String := "mal:" ++ rustLower (rustTrim raw)

/-- The cache probe of mod.rs lines 49-59: a hit is returned only while
current seconds < stored_at + CACHE_TTL_SECS; a stale entry is skipped (and
left in place). -/
def freshLookup (cache : Cache) (key : String) (nowSecs : Nat) : Option Json :=
  match cache.get key with
  | some (ts, cached) => if nowSecs < ts + CACHE_TTL_SECS then some cached else none
  | none => none

/-- The first array element the code drills into: json_body["data"][0]["node"],
with unwrap_or_default giving Null (mod.rs lines 96-101). -/
def data0 (json_body : Json) : Json :=
  ((((json_body.getKey "data").bind (fun d => d.getIdx 0)).bind
    (fun n => n.getKey "node")).getD .null)

/-- Field extraction of mod.rs lines 103-106: every field independently
defaults to its zero-equivalent, so extraction is a total function. -/
def extractMetrics (name : String) (json_body : Json) : MyMetrics :=
  let d := data0 json_body
  let mean := ((d.getKey "mean").bind Json.asF64).getD 0
  let popularity := ((d.getKey "popularity").bind Json.asI64).getD 0
  let num_list_users := ((d.getKey "num_list_users").bind Json.asI64).getD 0
  let title := (((d.getKey "title").bind Json.asStr).getD "")
  ⟨title, mean, popularity, num_list_users, name⟩

/-- The fetch-and-sign tail of process_data (mod.rs lines 61-126): URL check,
send, status check, JSON decode, field extraction, signing, cache insert. -/
def fetchAndSign (state : AppState) (env : Env) (nowMs : Nat) (cache : Cache)
    (key : String) (name : String) : StepResult :=
  if !env.urlOk then
    ⟨.error (.GenericError "invalid MAL_API_URL"), cache, false, false⟩
  else
    match env.upstream with
    | .sendError e =>
        ⟨.error (.GenericError ("Failed to request MAL: " ++ e)), cache, true, false⟩
    | .response status body =>
        if !statusIsSuccess status then
          ⟨.error (.GenericError "MAL returned status"), cache, true, false⟩
        else
          match body with
          | none => ⟨.error (.GenericError "Failed to parse MAL JSON"), cache, true, false⟩
          | some json_body =>
              let metrics := extractMetrics name json_body
              let timestamp_ms := nowMs
              let signed := to_signed_response state.eph_kp metrics timestamp_ms .ProcessData
              let serialized := serializeResponse signed
              ⟨.ok signed, cache.insert key (nowMs / 1000, serialized), true, true⟩

/-- process_data (mod.rs lines 38-127). Wall-clock time is a parameter: one
instant nowMs per call, with current_secs = nowMs / 1000. -/
def process_data (state : AppState) (env : Env) (nowMs : Nat) (cache : Cache)
    (request : ProcessDataRequest MyAnimeRequest) : StepResult :=
  let name := rustTrim request.payload.name
  if strIsEmpty name then
    ⟨.error (.GenericError "name required"), cache, false, false⟩
  else
    let key := cache_key request.payload.name
    match freshLookup cache key (nowMs / 1000) with
    | some cached =>
        match deserializeResponse cached with
        | some pd => ⟨.ok pd, cache, false, false⟩
        | none => ⟨.error (.GenericError "cache deserialize failed"), cache, false, false⟩
    | none => fetchAndSign state env nowMs cache key name

/-- The payload metrics of a call result, when the call succeeded. -/
def queriedNameOf (r : StepResult) : Option String :=
  match r.output with
  | .ok pd => some pd.response.data.queried_name
  | .error _ => none

/-! ## Concrete fixtures used by the closed instances below -/

def stateC : AppState := ⟨7⟩

def nodeFull : Json :=
  .obj [("title", .str "Naruto"),
        ("mean", .num (.float (17 / 2 : Rat))),
        ("popularity", .num (.int 5)),
        ("num_list_users", .num (.int 100))]

def bodyFull : Json := .obj [("data", .arr [.obj [("node", nodeFull)]])]

def bodyNoMean : Json :=
  .obj [("data", .arr [.obj [("node",
    .obj [("title", .str "Naruto"),
          ("popularity", .num (.int 5)),
          ("num_list_users", .num (.int 100))])]])]

def bodyNoData : Json := .obj [("other", .null)]

def envFetchOk : Env := ⟨true, .response 200 (some bodyFull)⟩

def envNoMean : Env := ⟨true, .response 200 (some bodyNoMean)⟩

def envNoData : Env := ⟨true, .response 200 (some bodyNoData)⟩

def envSendFail : Env := ⟨true, .sendError "timeout"⟩

def reqNaruto : ProcessDataRequest MyAnimeRequest := ⟨⟨"Naruto"⟩⟩

def metricsNaruto : MyMetrics := ⟨"Naruto", 17 / 2, 5, 100, "Naruto"⟩

def envelopeNaruto : ProcessedDataResponse (IntentMessage MyMetrics) :=
  to_signed_response 7 metricsNaruto 1000000 .ProcessData

/-! ## Basic lemmas -/

/-- What the cache stores is always readable back: deserialization inverts
serialization of a signed envelope. -/
theorem deserialize_serialize (s : ProcessedDataResponse (IntentMessage MyMetrics)) :
    deserializeResponse (serializeResponse s) = some s := by
  obtain ⟨⟨intent, ts, data⟩, sig⟩ := s
  cases intent
  simp [deserializeResponse, serializeResponse, serializeIntentMessage,
        deserializeIntentMessage, deserializeMetrics, Json.getKey, Json.asStr,
        Json.asF64, List.find?, Int.toNat_natCast]

theorem Cache.get_insert_self (c : Cache) (k : String) (e : Nat × Json) :
    (c.insert k e).get k = some e := by
  simp [Cache.insert, Cache.get]

theorem Cache.get_filter_ne (c : Cache) (k k' : String) (h : k' ≠ k) :
    Cache.get (c.filter (fun p => p.1 != k)) k' = c.get k' := by
  induction c with
  | nil => rfl
  | cons a rest ih =>
      obtain ⟨ka, ea⟩ := a
      by_cases hk : ka = k
      · have hb : ((ka, ea).1 != k) = false := by simp [hk]
        have hku : (ka == k') = false := beq_eq_false_iff_ne.mpr (fun hh => h (hh ▸ hk))
        simp only [List.filter_cons, hb, Bool.false_eq_true, if_false, ih, Cache.get, hku]
      · have hb : ((ka, ea).1 != k) = true := by simp [hk]
        simp only [List.filter_cons, hb, if_true, Cache.get, ih]

theorem Cache.get_insert_ne (c : Cache) (k k' : String) (e : Nat × Json)
    (h : k' ≠ k) : (c.insert k e).get k' = c.get k' := by
  simp only [Cache.insert, Cache.get, beq_iff_eq]
  rw [if_neg (fun he => h he.symm)]
  exact Cache.get_filter_ne c k k' h

theorem Cache.get_eraseKey_self (c : Cache) (k : String) :
    (c.eraseKey k).get k = none := by
  induction c with
  | nil => rfl
  | cons a rest ih =>
      obtain ⟨ka, ea⟩ := a
      by_cases hk : ka = k
      · have hb : ((ka, ea).1 != k) = false := by simp [hk]
        simp only [Cache.eraseKey, List.filter_cons, hb, Bool.false_eq_true, if_false]
        exact ih
      · have hb : ((ka, ea).1 != k) = true := by simp [hk]
        have hku : (ka == k) = false := beq_eq_false_iff_ne.mpr hk
        simp only [Cache.eraseKey, List.filter_cons, hb, if_true, Cache.get, hku,
          Bool.false_eq_true, if_false]
        exact ih

theorem Cache.get_eraseKey_ne (c : Cache) (k k' : String) (h : k' ≠ k) :
    (c.eraseKey k).get k' = c.get k' :=
  Cache.get_filter_ne c k k' h

/-! ## Characterization of the paths through process_data -/

theorem freshLookup_fresh {c : Cache} {key : String} {nowSecs ts : Nat} {v : Json}
    (hg : c.get key = some (ts, v)) (h : nowSecs < ts + CACHE_TTL_SECS) :
    freshLookup c key nowSecs = some v := by
  simp [freshLookup, hg, h]

theorem freshLookup_stale {c : Cache} {key : String} {nowSecs ts : Nat} {v : Json}
    (hg : c.get key = some (ts, v)) (h : ts + CACHE_TTL_SECS ≤ nowSecs) :
    freshLookup c key nowSecs = none := by
  simp [freshLookup, hg, Nat.not_lt.mpr h]

theorem freshLookup_absent {c : Cache} {key : String} {nowSecs : Nat}
    (hg : c.get key = none) : freshLookup c key nowSecs = none := by
  simp [freshLookup, hg]

theorem freshLookup_get_of_some {c : Cache} {key : String} {nowSecs : Nat} {v : Json}
    (h : freshLookup c key nowSecs = some v) :
    ∃ ts, c.get key = some (ts, v) ∧ nowSecs < ts + CACHE_TTL_SECS := by
  unfold freshLookup at h
  cases hg : c.get key with
  | none => rw [hg] at h; simp at h
  | some e =>
      obtain ⟨ts, w⟩ := e
      rw [hg] at h
      by_cases hts : nowSecs < ts + CACHE_TTL_SECS
      · simp only [hts, if_true, Option.some.injEq] at h
        subst h
        exact ⟨ts, rfl, hts⟩
      · simp [hts] at h

theorem process_data_empty (state : AppState) (env : Env) (nowMs : Nat) (cache : Cache)
    (request : ProcessDataRequest MyAnimeRequest)
    (h : strIsEmpty (rustTrim request.payload.name) = true) :
    process_data state env nowMs cache request =
      ⟨.error (.GenericError "name required"), cache, false, false⟩ := by
  simp [process_data, h]

theorem process_data_hit (state : AppState) (env : Env) (nowMs : Nat) (cache : Cache)
    (request : ProcessDataRequest MyAnimeRequest) {v : Json}
    {pd : ProcessedDataResponse (IntentMessage MyMetrics)}
    (hne : strIsEmpty (rustTrim request.payload.name) = false)
    (hl : freshLookup cache (cache_key request.payload.name) (nowMs / 1000) = some v)
    (hd : deserializeResponse v = some pd) :
    process_data state env nowMs cache request = ⟨.ok pd, cache, false, false⟩ := by
  simp [process_data, hne, hl, hd]

theorem process_data_toFetch (state : AppState) (env : Env) (nowMs : Nat) (cache : Cache)
    (request : ProcessDataRequest MyAnimeRequest)
    (hne : strIsEmpty (rustTrim request.payload.name) = false)
    (hl : freshLookup cache (cache_key request.payload.name) (nowMs / 1000) = none) :
    process_data state env nowMs cache request =
      fetchAndSign state env nowMs cache (cache_key request.payload.name)
        (rustTrim request.payload.name) := by
  simp [process_data, hne, hl]

theorem process_data_hitBad (state : AppState) (env : Env) (nowMs : Nat) (cache : Cache)
    (request : ProcessDataRequest MyAnimeRequest) {v : Json}
    (hne : strIsEmpty (rustTrim request.payload.name) = false)
    (hl : freshLookup cache (cache_key request.payload.name) (nowMs / 1000) = some v)
    (hd : deserializeResponse v = none) :
    process_data state env nowMs cache request =
      ⟨.error (.GenericError "cache deserialize failed"), cache, false, false⟩ := by
  simp [process_data, hne, hl, hd]

theorem fetchAndSign_urlBad (state : AppState) (env : Env) (nowMs : Nat) (cache : Cache)
    (key name : String) (hurl : env.urlOk = false) :
    fetchAndSign state env nowMs cache key name =
      ⟨.error (.GenericError "invalid MAL_API_URL"), cache, false, false⟩ := by
  simp [fetchAndSign, hurl]

theorem fetchAndSign_sendError (state : AppState) (env : Env) (nowMs : Nat) (cache : Cache)
    (key name : String) {e : String}
    (hurl : env.urlOk = true) (hup : env.upstream = .sendError e) :
    fetchAndSign state env nowMs cache key name =
      ⟨.error (.GenericError ("Failed to request MAL: " ++ e)), cache, true, false⟩ := by
  simp [fetchAndSign, hurl, hup]

theorem fetchAndSign_badStatus (state : AppState) (env : Env) (nowMs : Nat) (cache : Cache)
    (key name : String) {status : Nat} {body : Option Json}
    (hurl : env.urlOk = true) (hup : env.upstream = .response status body)
    (hst : statusIsSuccess status = false) :
    fetchAndSign state env nowMs cache key name =
      ⟨.error (.GenericError "MAL returned status"), cache, true, false⟩ := by
  simp [fetchAndSign, hurl, hup, hst]

theorem fetchAndSign_noBody (state : AppState) (env : Env) (nowMs : Nat) (cache : Cache)
    (key name : String) {status : Nat}
    (hurl : env.urlOk = true) (hup : env.upstream = .response status none)
    (hst : statusIsSuccess status = true) :
    fetchAndSign state env nowMs cache key name =
      ⟨.error (.GenericError "Failed to parse MAL JSON"), cache, true, false⟩ := by
  simp [fetchAndSign, hurl, hup, hst]

theorem fetchAndSign_success (state : AppState) (env : Env) (nowMs : Nat) (cache : Cache)
    (key name : String) {status : Nat} {body : Json}
    (hurl : env.urlOk = true)
    (hup : env.upstream = .response status (some body))
    (hst : statusIsSuccess status = true) :
    fetchAndSign state env nowMs cache key name =
      ⟨.ok (to_signed_response state.eph_kp (extractMetrics name body) nowMs .ProcessData),
       cache.insert key (nowMs / 1000,
         serializeResponse
           (to_signed_response state.eph_kp (extractMetrics name body) nowMs .ProcessData)),
       true, true⟩ := by
  simp [fetchAndSign, hurl, hup, hst]

/-! ## Inversion lemmas -/

/-- A fetch is attempted exactly on the path where the name is non-empty, the
cache probe found nothing fresh, and the upstream URL parsed. -/
theorem fetched_true_inv (state : AppState) (env : Env) (nowMs : Nat) (cache : Cache)
    (request : ProcessDataRequest MyAnimeRequest)
    (h : (process_data state env nowMs cache request).fetched = true) :
    strIsEmpty (rustTrim request.payload.name) = false ∧
    freshLookup cache (cache_key request.payload.name) (nowMs / 1000) = none ∧
    env.urlOk = true := by
  cases hne : strIsEmpty (rustTrim request.payload.name) with
  | true => rw [process_data_empty state env nowMs cache request hne] at h; simp at h
  | false =>
    cases hl : freshLookup cache (cache_key request.payload.name) (nowMs / 1000) with
    | some v =>
        cases hd : deserializeResponse v with
        | some pd => rw [process_data_hit state env nowMs cache request hne hl hd] at h; simp at h
        | none => rw [process_data_hitBad state env nowMs cache request hne hl hd] at h; simp at h
    | none =>
        refine ⟨rfl, rfl, ?_⟩
        cases hurl : env.urlOk with
        | false =>
            rw [process_data_toFetch state env nowMs cache request hne hl,
              fetchAndSign_urlBad state env nowMs cache _ _ hurl] at h
            simp at h
        | true => rfl

/-- Signing happens exactly on the fresh-fetch success path, and there the
whole result is determined: the envelope is built from the extracted metrics
at the current time and inserted into the cache. -/
theorem didSign_true_inv (state : AppState) (env : Env) (nowMs : Nat) (cache : Cache)
    (request : ProcessDataRequest MyAnimeRequest)
    (h : (process_data state env nowMs cache request).didSign = true) :
    ∃ status body,
      strIsEmpty (rustTrim request.payload.name) = false ∧
      freshLookup cache (cache_key request.payload.name) (nowMs / 1000) = none ∧
      env.urlOk = true ∧
      env.upstream = .response status (some body) ∧
      statusIsSuccess status = true ∧
      process_data state env nowMs cache request =
        ⟨.ok (to_signed_response state.eph_kp
                (extractMetrics (rustTrim request.payload.name) body) nowMs .ProcessData),
         cache.insert (cache_key request.payload.name) (nowMs / 1000,
           serializeResponse (to_signed_response state.eph_kp
             (extractMetrics (rustTrim request.payload.name) body) nowMs .ProcessData)),
         true, true⟩ := by
  cases hne : strIsEmpty (rustTrim request.payload.name) with
  | true => rw [process_data_empty state env nowMs cache request hne] at h; simp at h
  | false =>
    cases hl : freshLookup cache (cache_key request.payload.name) (nowMs / 1000) with
    | some v =>
        cases hd : deserializeResponse v with
        | some pd => rw [process_data_hit state env nowMs cache request hne hl hd] at h; simp at h
        | none => rw [process_data_hitBad state env nowMs cache request hne hl hd] at h; simp at h
    | none =>
        rw [process_data_toFetch state env nowMs cache request hne hl] at h ⊢
        cases hurl : env.urlOk with
        | false => rw [fetchAndSign_urlBad state env nowMs cache _ _ hurl] at h; simp at h
        | true =>
          cases hup : env.upstream with
          | sendError e =>
              rw [fetchAndSign_sendError state env nowMs cache _ _ hurl hup] at h; simp at h
          | response status body =>
            cases hst : statusIsSuccess status with
            | false =>
                rw [fetchAndSign_badStatus state env nowMs cache _ _ hurl hup hst] at h
                simp at h
            | true =>
              cases body with
              | none =>
                  rw [fetchAndSign_noBody state env nowMs cache _ _ hurl hup hst] at h
                  simp at h
              | some json_body =>
                  exact ⟨status, json_body, rfl, rfl, rfl, rfl, hst,
                    fetchAndSign_success state env nowMs cache _ _ hurl hup hst⟩

/-- Whenever a call succeeds, the cache it leaves behind holds, at the key of
the request, an entry whose stored value deserializes to exactly the returned
envelope. -/
theorem output_ok_entry (state : AppState) (env : Env) (nowMs : Nat) (cache : Cache)
    (request : ProcessDataRequest MyAnimeRequest)
    {pd : ProcessedDataResponse (IntentMessage MyMetrics)}
    (h : (process_data state env nowMs cache request).output = .ok pd) :
    strIsEmpty (rustTrim request.payload.name) = false ∧
    ∃ ts v,
      (process_data state env nowMs cache request).cache.get
        (cache_key request.payload.name) = some (ts, v) ∧
      deserializeResponse v = some pd := by
  cases hne : strIsEmpty (rustTrim request.payload.name) with
  | true => rw [process_data_empty state env nowMs cache request hne] at h; simp at h
  | false =>
    refine ⟨rfl, ?_⟩
    cases hl : freshLookup cache (cache_key request.payload.name) (nowMs / 1000) with
    | some v =>
        cases hd : deserializeResponse v with
        | some pd2 =>
            rw [process_data_hit state env nowMs cache request hne hl hd] at h ⊢
            simp only [Except.ok.injEq] at h
            subst h
            obtain ⟨ts, hg, _⟩ := freshLookup_get_of_some hl
            exact ⟨ts, v, hg, hd⟩
        | none => rw [process_data_hitBad state env nowMs cache request hne hl hd] at h; simp at h
    | none =>
        rw [process_data_toFetch state env nowMs cache request hne hl] at h ⊢
        cases hurl : env.urlOk with
        | false => rw [fetchAndSign_urlBad state env nowMs cache _ _ hurl] at h; simp at h
        | true =>
          cases hup : env.upstream with
          | sendError e =>
              rw [fetchAndSign_sendError state env nowMs cache _ _ hurl hup] at h; simp at h
          | response status body =>
            cases hst : statusIsSuccess status with
            | false =>
                rw [fetchAndSign_badStatus state env nowMs cache _ _ hurl hup hst] at h
                simp at h
            | true =>
              cases body with
              | none =>
                  rw [fetchAndSign_noBody state env nowMs cache _ _ hurl hup hst] at h
                  simp at h
              | some json_body =>
                  rw [fetchAndSign_success state env nowMs cache _ _ hurl hup hst] at h ⊢
                  simp only [Except.ok.injEq] at h
                  subst h
                  exact ⟨nowMs / 1000, _, Cache.get_insert_self _ _ _,
                    deserialize_serialize _⟩

/-- The only cache mutation a call can make is one insert at its own key:
either the cache is returned unchanged (and nothing was signed), or exactly
one entry was inserted at the key of the request (and a fresh envelope was
signed). -/
theorem process_data_cache_shape (state : AppState) (env : Env) (nowMs : Nat)
    (cache : Cache) (request : ProcessDataRequest MyAnimeRequest) :
    ((process_data state env nowMs cache request).cache = cache ∧
     (process_data state env nowMs cache request).didSign = false) ∨
    (∃ e, (process_data state env nowMs cache request).cache =
            cache.insert (cache_key request.payload.name) e ∧
          (process_data state env nowMs cache request).didSign = true) := by
  cases hne : strIsEmpty (rustTrim request.payload.name) with
  | true => rw [process_data_empty state env nowMs cache request hne]; exact .inl ⟨rfl, rfl⟩
  | false =>
    cases hl : freshLookup cache (cache_key request.payload.name) (nowMs / 1000) with
    | some v =>
        cases hd : deserializeResponse v with
        | some pd =>
            rw [process_data_hit state env nowMs cache request hne hl hd]
            exact .inl ⟨rfl, rfl⟩
        | none =>
            rw [process_data_hitBad state env nowMs cache request hne hl hd]
            exact .inl ⟨rfl, rfl⟩
    | none =>
        rw [process_data_toFetch state env nowMs cache request hne hl]
        cases hurl : env.urlOk with
        | false =>
            rw [fetchAndSign_urlBad state env nowMs cache _ _ hurl]
            exact .inl ⟨rfl, rfl⟩
        | true =>
          cases hup : env.upstream with
          | sendError e =>
              rw [fetchAndSign_sendError state env nowMs cache _ _ hurl hup]
              exact .inl ⟨rfl, rfl⟩
          | response status body =>
            cases hst : statusIsSuccess status with
            | false =>
                rw [fetchAndSign_badStatus state env nowMs cache _ _ hurl hup hst]
                exact .inl ⟨rfl, rfl⟩
            | true =>
              cases body with
              | none =>
                  rw [fetchAndSign_noBody state env nowMs cache _ _ hurl hup hst]
                  exact .inl ⟨rfl, rfl⟩
              | some json_body =>
                  rw [fetchAndSign_success state env nowMs cache _ _ hurl hup hst]
                  exact .inr ⟨_, rfl, rfl⟩

/-- A call never touches cache entries under any key other than its own. -/
theorem process_data_get_other (state : AppState) (env : Env) (nowMs : Nat)
    (cache : Cache) (request : ProcessDataRequest MyAnimeRequest) (k : String)
    (hk : k ≠ cache_key request.payload.name) :
    (process_data state env nowMs cache request).cache.get k = cache.get k := by
  rcases process_data_cache_shape state env nowMs cache request with ⟨hc, _⟩ | ⟨e, hc, _⟩
  · rw [hc]
  · rw [hc, Cache.get_insert_ne _ _ _ _ hk]

/-- The outcome, fetch flag and signing flag of the fetch-and-sign tail do
not depend on the cache it was handed. -/
theorem fetchAndSign_cache_irrelevant (state : AppState) (env : Env) (nowMs : Nat)
    (c1 c2 : Cache) (key name : String) :
    (fetchAndSign state env nowMs c1 key name).output =
      (fetchAndSign state env nowMs c2 key name).output ∧
    (fetchAndSign state env nowMs c1 key name).fetched =
      (fetchAndSign state env nowMs c2 key name).fetched ∧
    (fetchAndSign state env nowMs c1 key name).didSign =
      (fetchAndSign state env nowMs c2 key name).didSign := by
  cases hurl : env.urlOk with
  | false =>
      rw [fetchAndSign_urlBad state env nowMs c1 _ _ hurl,
        fetchAndSign_urlBad state env nowMs c2 _ _ hurl]
      exact ⟨rfl, rfl, rfl⟩
  | true =>
    cases hup : env.upstream with
    | sendError e =>
        rw [fetchAndSign_sendError state env nowMs c1 _ _ hurl hup,
          fetchAndSign_sendError state env nowMs c2 _ _ hurl hup]
        exact ⟨rfl, rfl, rfl⟩
    | response status body =>
      cases hst : statusIsSuccess status with
      | false =>
          rw [fetchAndSign_badStatus state env nowMs c1 _ _ hurl hup hst,
            fetchAndSign_badStatus state env nowMs c2 _ _ hurl hup hst]
          exact ⟨rfl, rfl, rfl⟩
      | true =>
        cases body with
        | none =>
            rw [fetchAndSign_noBody state env nowMs c1 _ _ hurl hup hst,
              fetchAndSign_noBody state env nowMs c2 _ _ hurl hup hst]
            exact ⟨rfl, rfl, rfl⟩
        | some json_body =>
            rw [fetchAndSign_success state env nowMs c1 _ _ hurl hup hst,
              fetchAndSign_success state env nowMs c2 _ _ hurl hup hst]
            exact ⟨rfl, rfl, rfl⟩

/-- If the fetch-and-sign tail returned Ok, the upstream interaction was a
successful response with a parseable body, and the envelope is the signed
extraction at the current time. -/
theorem fetchAndSign_ok_inv (state : AppState) (env : Env) (nowMs : Nat)
    (cache : Cache) (key name : String)
    {s : ProcessedDataResponse (IntentMessage MyMetrics)}
    (h : (fetchAndSign state env nowMs cache key name).output = .ok s) :
    ∃ status body,
      env.urlOk = true ∧ env.upstream = .response status (some body) ∧
      statusIsSuccess status = true ∧
      s = to_signed_response state.eph_kp (extractMetrics name body) nowMs .ProcessData ∧
      fetchAndSign state env nowMs cache key name =
        ⟨.ok s, cache.insert key (nowMs / 1000, serializeResponse s), true, true⟩ := by
  cases hurl : env.urlOk with
  | false => rw [fetchAndSign_urlBad state env nowMs cache _ _ hurl] at h; simp at h
  | true =>
    cases hup : env.upstream with
    | sendError e =>
        rw [fetchAndSign_sendError state env nowMs cache _ _ hurl hup] at h; simp at h
    | response status body =>
      cases hst : statusIsSuccess status with
      | false =>
          rw [fetchAndSign_badStatus state env nowMs cache _ _ hurl hup hst] at h
          simp at h
      | true =>
        cases body with
        | none =>
            rw [fetchAndSign_noBody state env nowMs cache _ _ hurl hup hst] at h
            simp at h
        | some json_body =>
            rw [fetchAndSign_success state env nowMs cache _ _ hurl hup hst] at h
            simp only [Except.ok.injEq] at h
            subst h
            exact ⟨status, json_body, rfl, rfl, hst, rfl,
              fetchAndSign_success state env nowMs cache _ _ hurl hup hst⟩

/-! ## The claims -/

/-- C1: Idempotence within TTL. For every query whose trimmed form is
non-empty, if a process_data call succeeds and a second call with a query
normalizing to the same key is made while the cache entry written or read by
the first call is still fresh (strictly less than TTL = 300 seconds after the
insert), the second call returns the identical envelope (same signature,
timestamp and payload), performs no upstream fetch and no re-signing, and
leaves the cache unchanged. -/
theorem C1_idempotence_within_ttl (state : AppState) (env1 env2 : Env)
    (now1 now2 : Nat) (cache : Cache) (q1 q2 : ProcessDataRequest MyAnimeRequest)
    (s1 : ProcessedDataResponse (IntentMessage MyMetrics)) (ts : Nat) (v : Json)
    (h1 : (process_data state env1 now1 cache q1).output = .ok s1)
    (hkey : cache_key q2.payload.name = cache_key q1.payload.name)
    (hne2 : strIsEmpty (rustTrim q2.payload.name) = false)
    (hget : (process_data state env1 now1 cache q1).cache.get
              (cache_key q1.payload.name) = some (ts, v))
    (hfresh : now2 / 1000 < ts + CACHE_TTL_SECS) :
    (process_data state env2 now2 (process_data state env1 now1 cache q1).cache q2).output
        = .ok s1 ∧
    (process_data state env2 now2 (process_data state env1 now1 cache q1).cache q2).fetched
        = false ∧
    (process_data state env2 now2 (process_data state env1 now1 cache q1).cache q2).didSign
        = false ∧
    (process_data state env2 now2 (process_data state env1 now1 cache q1).cache q2).cache
        = (process_data state env1 now1 cache q1).cache := by
  obtain ⟨hne1, ts2, v2, hget2, hdeser⟩ := output_ok_entry state env1 now1 cache q1 h1
  rw [hget] at hget2
  obtain ⟨hts, hv⟩ : ts = ts2 ∧ v = v2 := by
    have := hget2
    simp only [Option.some.injEq, Prod.mk.injEq] at this
    exact this
  subst hts; subst hv
  have hl : freshLookup (process_data state env1 now1 cache q1).cache
      (cache_key q2.payload.name) (now2 / 1000) = some v := by
    rw [hkey]
    exact freshLookup_fresh hget hfresh
  rw [process_data_hit state env2 now2 _ q2 hne2 hl hdeser]
  exact ⟨rfl, rfl, rfl, rfl⟩

theorem C1_idempotence_within_ttl_witness :
    (process_data stateC envFetchOk 1000000 [] reqNaruto).output = .ok envelopeNaruto ∧
    cache_key "  naruto " = cache_key "Naruto" ∧
    strIsEmpty (rustTrim "  naruto ") = false ∧
    (process_data stateC envFetchOk 1000000 [] reqNaruto).cache.get
      (cache_key "Naruto") = some (1000, serializeResponse envelopeNaruto) ∧
    1200000 / 1000 < 1000 + CACHE_TTL_SECS ∧
    ((process_data stateC envSendFail 1200000
        (process_data stateC envFetchOk 1000000 [] reqNaruto).cache ⟨⟨"  naruto "⟩⟩).output
        = .ok envelopeNaruto ∧
     (process_data stateC envSendFail 1200000
        (process_data stateC envFetchOk 1000000 [] reqNaruto).cache ⟨⟨"  naruto "⟩⟩).fetched
        = false ∧
     (process_data stateC envSendFail 1200000
        (process_data stateC envFetchOk 1000000 [] reqNaruto).cache ⟨⟨"  naruto "⟩⟩).didSign
        = false ∧
     (process_data stateC envSendFail 1200000
        (process_data stateC envFetchOk 1000000 [] reqNaruto).cache ⟨⟨"  naruto "⟩⟩).cache
        = (process_data stateC envFetchOk 1000000 [] reqNaruto).cache) :=
  ⟨by rfl, by rfl, by rfl, by rfl, by decide,
   C1_idempotence_within_ttl stateC envFetchOk envSendFail 1000000 1200000 []
     reqNaruto ⟨⟨"  naruto "⟩⟩ envelopeNaruto 1000
     (serializeResponse envelopeNaruto) (by rfl) (by rfl) (by rfl) (by rfl) (by decide)⟩

/-- C2: Empty input rejected. A query that is empty after trimming fails with
the InvalidInput-style error "name required", makes no upstream call, and
leaves the cache unchanged. -/
theorem C2_empty_input_rejected (state : AppState) (env : Env) (nowMs : Nat)
    (cache : Cache) (request : ProcessDataRequest MyAnimeRequest)
    (h : strIsEmpty (rustTrim request.payload.name) = true) :
    (process_data state env nowMs cache request).output =
      .error (.GenericError "name required") ∧
    (process_data state env nowMs cache request).fetched = false ∧
    (process_data state env nowMs cache request).didSign = false ∧
    (process_data state env nowMs cache request).cache = cache := by
  rw [process_data_empty state env nowMs cache request h]
  exact ⟨rfl, rfl, rfl, rfl⟩

theorem C2_empty_input_rejected_witness :
    strIsEmpty (rustTrim "   ") = true ∧
    ((process_data stateC envFetchOk 1000 [] ⟨⟨"   "⟩⟩).output =
        .error (.GenericError "name required") ∧
     (process_data stateC envFetchOk 1000 [] ⟨⟨"   "⟩⟩).fetched = false ∧
     (process_data stateC envFetchOk 1000 [] ⟨⟨"   "⟩⟩).didSign = false ∧
     (process_data stateC envFetchOk 1000 [] ⟨⟨"   "⟩⟩).cache = []) :=
  ⟨by rfl, C2_empty_input_rejected stateC envFetchOk 1000 [] ⟨⟨"   "⟩⟩ (by rfl)⟩

/-- C3: Key normalization. Two raw queries that agree after trimming and
lower-casing produce the same cache key (the namespace mal: followed by the
lower-cased trimmed query), and a call only ever reads and writes the cache
at that shared key: every other key is untouched by either call. -/
theorem C3_key_normalization (q1 q2 : String)
    (h : rustLower (rustTrim q1) = rustLower (rustTrim q2)) :
    cache_key q1 = cache_key q2 ∧
    ∀ state env nowMs cache k, k ≠ cache_key q1 →
      ((process_data state env nowMs cache ⟨⟨q1⟩⟩).cache.get k = cache.get k ∧
       (process_data state env nowMs cache ⟨⟨q2⟩⟩).cache.get k = cache.get k) := by
  have hk : cache_key q1 = cache_key q2 := by
    unfold cache_key
    rw [h]
  refine ⟨hk, ?_⟩
  intro state env nowMs cache k hkk
  exact ⟨process_data_get_other state env nowMs cache ⟨⟨q1⟩⟩ k hkk,
         process_data_get_other state env nowMs cache ⟨⟨q2⟩⟩ k (hk ▸ hkk)⟩

theorem C3_key_normalization_witness :
    rustLower (rustTrim "Naruto") = rustLower (rustTrim "  naruto  ") ∧
    (cache_key "Naruto" = cache_key "  naruto  " ∧
     ∀ state env nowMs cache k, k ≠ cache_key "Naruto" →
       ((process_data state env nowMs cache ⟨⟨"Naruto"⟩⟩).cache.get k = cache.get k ∧
        (process_data state env nowMs cache ⟨⟨"  naruto  "⟩⟩).cache.get k = cache.get k)) :=
  ⟨by rfl, C3_key_normalization "Naruto" "  naruto  " (by rfl)⟩

/-- C4: Freshness policy. For a cache entry with stored_at ts, a lookup at
time now serves the cached envelope exactly when now - ts < TTL (= 300
seconds): while fresh, no fetch happens, the cache is untouched and the
stored envelope is returned as deserialized; at age ≥ TTL the entry is
treated as absent — the call behaves (in outcome, fetch and signing) exactly
like the same call on a cache without that entry, so it proceeds to a fresh
fetch — and the expired entry is not proactively removed: unless a successful
fetch overwrites it, the cache is left exactly as it was. -/
theorem C4_freshness_policy (state : AppState) (env : Env) (nowMs : Nat)
    (cache : Cache) (request : ProcessDataRequest MyAnimeRequest) (ts : Nat) (v : Json)
    (hne : strIsEmpty (rustTrim request.payload.name) = false)
    (hget : cache.get (cache_key request.payload.name) = some (ts, v)) :
    (nowMs / 1000 - ts < CACHE_TTL_SECS →
      (process_data state env nowMs cache request).fetched = false ∧
      (process_data state env nowMs cache request).cache = cache ∧
      ∀ s, deserializeResponse v = some s →
        (process_data state env nowMs cache request).output = .ok s) ∧
    (CACHE_TTL_SECS ≤ nowMs / 1000 - ts →
      ((process_data state env nowMs cache request).output =
        (process_data state env nowMs
          (cache.eraseKey (cache_key request.payload.name)) request).output ∧
       (process_data state env nowMs cache request).fetched =
        (process_data state env nowMs
          (cache.eraseKey (cache_key request.payload.name)) request).fetched ∧
       (process_data state env nowMs cache request).didSign =
        (process_data state env nowMs
          (cache.eraseKey (cache_key request.payload.name)) request).didSign) ∧
      ((process_data state env nowMs cache request).didSign = false →
        (process_data state env nowMs cache request).cache = cache)) := by
  constructor
  · intro hfr
    have hfresh : nowMs / 1000 < ts + CACHE_TTL_SECS := by omega
    have hl : freshLookup cache (cache_key request.payload.name) (nowMs / 1000) = some v :=
      freshLookup_fresh hget hfresh
    cases hd : deserializeResponse v with
    | some pd =>
        rw [process_data_hit state env nowMs cache request hne hl hd]
        refine ⟨rfl, rfl, ?_⟩
        intro s hs
        simp only [Option.some.injEq] at hs
        rw [hs]
    | none =>
        rw [process_data_hitBad state env nowMs cache request hne hl hd]
        refine ⟨rfl, rfl, ?_⟩
        intro s hs
        exact absurd hs (by simp)
  · intro hst
    have hts : ts + CACHE_TTL_SECS ≤ nowMs / 1000 := by
      rcases Nat.le_total (nowMs / 1000) ts with hh | hh
      · exfalso
        have : nowMs / 1000 - ts = 0 := Nat.sub_eq_zero_of_le hh
        rw [this] at hst
        exact absurd hst (by simp [CACHE_TTL_SECS])
      · omega
    have hl : freshLookup cache (cache_key request.payload.name) (nowMs / 1000) = none :=
      freshLookup_stale hget hts
    have hl2 : freshLookup (cache.eraseKey (cache_key request.payload.name))
        (cache_key request.payload.name) (nowMs / 1000) = none :=
      freshLookup_absent (Cache.get_eraseKey_self cache _)
    constructor
    · rw [process_data_toFetch state env nowMs cache request hne hl,
        process_data_toFetch state env nowMs _ request hne hl2]
      exact fetchAndSign_cache_irrelevant state env nowMs cache _ _ _
    · intro hsign
      rcases process_data_cache_shape state env nowMs cache request with ⟨hc, _⟩ | ⟨e, _, hd⟩
      · exact hc
      · rw [hd] at hsign
        exact absurd hsign (by simp)

theorem C4_freshness_policy_witness :
    strIsEmpty (rustTrim "Naruto") = false ∧
    Cache.get [(cache_key "Naruto", 1000, serializeResponse envelopeNaruto)]
      (cache_key "Naruto") = some (1000, serializeResponse envelopeNaruto) ∧
    ((1100000 / 1000 - 1000 < CACHE_TTL_SECS →
      (process_data stateC envSendFail 1100000
        [(cache_key "Naruto", 1000, serializeResponse envelopeNaruto)] reqNaruto).fetched = false ∧
      (process_data stateC envSendFail 1100000
        [(cache_key "Naruto", 1000, serializeResponse envelopeNaruto)] reqNaruto).cache =
        [(cache_key "Naruto", 1000, serializeResponse envelopeNaruto)] ∧
      ∀ s, deserializeResponse (serializeResponse envelopeNaruto) = some s →
        (process_data stateC envSendFail 1100000
          [(cache_key "Naruto", 1000, serializeResponse envelopeNaruto)] reqNaruto).output =
          .ok s) ∧
    (CACHE_TTL_SECS ≤ 1100000 / 1000 - 1000 →
      ((process_data stateC envSendFail 1100000
          [(cache_key "Naruto", 1000, serializeResponse envelopeNaruto)] reqNaruto).output =
        (process_data stateC envSendFail 1100000
          (Cache.eraseKey [(cache_key "Naruto", 1000, serializeResponse envelopeNaruto)]
            (cache_key "Naruto")) reqNaruto).output ∧
       (process_data stateC envSendFail 1100000
          [(cache_key "Naruto", 1000, serializeResponse envelopeNaruto)] reqNaruto).fetched =
        (process_data stateC envSendFail 1100000
          (Cache.eraseKey [(cache_key "Naruto", 1000, serializeResponse envelopeNaruto)]
            (cache_key "Naruto")) reqNaruto).fetched ∧
       (process_data stateC envSendFail 1100000
          [(cache_key "Naruto", 1000, serializeResponse envelopeNaruto)] reqNaruto).didSign =
        (process_data stateC envSendFail 1100000
          (Cache.eraseKey [(cache_key "Naruto", 1000, serializeResponse envelopeNaruto)]
            (cache_key "Naruto")) reqNaruto).didSign) ∧
      ((process_data stateC envSendFail 1100000
          [(cache_key "Naruto", 1000, serializeResponse envelopeNaruto)] reqNaruto).didSign =
          false →
        (process_data stateC envSendFail 1100000
          [(cache_key "Naruto", 1000, serializeResponse envelopeNaruto)] reqNaruto).cache =
          [(cache_key "Naruto", 1000, serializeResponse envelopeNaruto)]))) :=
  ⟨by rfl, by rfl,
   C4_freshness_policy stateC envSendFail 1100000
     [(cache_key "Naruto", 1000, serializeResponse envelopeNaruto)] reqNaruto 1000
     (serializeResponse envelopeNaruto) (by rfl) (by rfl)⟩

/-- C5: Fetch-failure atomicity. Any call that performed an upstream fetch
and returned an error (transport failure, non-success status, or unparseable
body) leaves the entire cache exactly as it was: the stale or fresh entry for
the requested key and all entries for other keys are unchanged. -/
theorem C5_fetch_failure_atomicity (state : AppState) (env : Env) (nowMs : Nat)
    (cache : Cache) (request : ProcessDataRequest MyAnimeRequest) (e : EnclaveError)
    (hf : (process_data state env nowMs cache request).fetched = true)
    (he : (process_data state env nowMs cache request).output = .error e) :
    (process_data state env nowMs cache request).cache = cache := by
  rcases process_data_cache_shape state env nowMs cache request with ⟨hc, _⟩ | ⟨e2, _, hd⟩
  · exact hc
  · obtain ⟨status, body, _, _, _, _, _, heq⟩ :=
      didSign_true_inv state env nowMs cache request hd
    rw [heq] at he
    exact absurd he (by simp)

theorem C5_fetch_failure_atomicity_witness :
    (process_data stateC envSendFail 1100000
      [("mal:other", 999, Json.null)] reqNaruto).fetched = true ∧
    (process_data stateC envSendFail 1100000
      [("mal:other", 999, Json.null)] reqNaruto).output =
      .error (.GenericError ("Failed to request MAL: " ++ "timeout")) ∧
    (process_data stateC envSendFail 1100000
      [("mal:other", 999, Json.null)] reqNaruto).cache =
      [("mal:other", 999, Json.null)] :=
  ⟨by rfl, by rfl,
   C5_fetch_failure_atomicity stateC envSendFail 1100000
     [("mal:other", 999, Json.null)] reqNaruto
     (.GenericError ("Failed to request MAL: " ++ "timeout")) (by rfl) (by rfl)⟩

/-- C6: Per-field defaulting. Whenever a call reaches the fetch and the
upstream answer is a success status with a parseable body, the call succeeds
— extraction of the metric fields never fails — and each field is extracted
independently: title defaults to the empty string, the rating to 0, the rank
and the member count to 0 whenever the field is missing or of the wrong
type, and each field takes the upstream value whenever it is present with
the right type. -/
theorem C6_per_field_defaulting (state : AppState) (env : Env) (nowMs : Nat)
    (cache : Cache) (request : ProcessDataRequest MyAnimeRequest)
    (status : Nat) (body : Json)
    (hf : (process_data state env nowMs cache request).fetched = true)
    (hup : env.upstream = .response status (some body))
    (hst : statusIsSuccess status = true) :
    (process_data state env nowMs cache request).output =
      .ok (to_signed_response state.eph_kp
            (extractMetrics (rustTrim request.payload.name) body) nowMs .ProcessData) ∧
    (((data0 body).getKey "title").bind Json.asStr = none →
      (extractMetrics (rustTrim request.payload.name) body).title = "") ∧
    (∀ t, ((data0 body).getKey "title").bind Json.asStr = some t →
      (extractMetrics (rustTrim request.payload.name) body).title = t) ∧
    (((data0 body).getKey "mean").bind Json.asF64 = none →
      (extractMetrics (rustTrim request.payload.name) body).external_average_rating = 0) ∧
    (∀ q, ((data0 body).getKey "mean").bind Json.asF64 = some q →
      (extractMetrics (rustTrim request.payload.name) body).external_average_rating = q) ∧
    (((data0 body).getKey "popularity").bind Json.asI64 = none →
      (extractMetrics (rustTrim request.payload.name) body).external_popularity_rank = 0) ∧
    (∀ i, ((data0 body).getKey "popularity").bind Json.asI64 = some i →
      (extractMetrics (rustTrim request.payload.name) body).external_popularity_rank = i) ∧
    (((data0 body).getKey "num_list_users").bind Json.asI64 = none →
      (extractMetrics (rustTrim request.payload.name) body).external_member_count = 0) ∧
    (∀ i, ((data0 body).getKey "num_list_users").bind Json.asI64 = some i →
      (extractMetrics (rustTrim request.payload.name) body).external_member_count = i) := by
  obtain ⟨hne, hl, hurl⟩ := fetched_true_inv state env nowMs cache request hf
  refine ⟨?_, ?_, ?_, ?_, ?_, ?_, ?_, ?_, ?_⟩
  · rw [process_data_toFetch state env nowMs cache request hne hl,
      fetchAndSign_success state env nowMs cache _ _ hurl hup hst]
  · intro h; simp [extractMetrics, h]
  · intro t h; simp [extractMetrics, h]
  · intro h; simp [extractMetrics, h]
  · intro q h; simp [extractMetrics, h]
  · intro h; simp [extractMetrics, h]
  · intro i h; simp [extractMetrics, h]
  · intro h; simp [extractMetrics, h]
  · intro i h; simp [extractMetrics, h]

theorem C6_per_field_defaulting_witness :
    (process_data stateC envNoMean 1000000 [] reqNaruto).fetched = true ∧
    envNoMean.upstream = .response 200 (some bodyNoMean) ∧
    statusIsSuccess 200 = true ∧
    ((process_data stateC envNoMean 1000000 [] reqNaruto).output =
      .ok (to_signed_response 7 (extractMetrics (rustTrim "Naruto") bodyNoMean)
            1000000 .ProcessData) ∧
    (((data0 bodyNoMean).getKey "title").bind Json.asStr = none →
      (extractMetrics (rustTrim "Naruto") bodyNoMean).title = "") ∧
    (∀ t, ((data0 bodyNoMean).getKey "title").bind Json.asStr = some t →
      (extractMetrics (rustTrim "Naruto") bodyNoMean).title = t) ∧
    (((data0 bodyNoMean).getKey "mean").bind Json.asF64 = none →
      (extractMetrics (rustTrim "Naruto") bodyNoMean).external_average_rating = 0) ∧
    (∀ q, ((data0 bodyNoMean).getKey "mean").bind Json.asF64 = some q →
      (extractMetrics (rustTrim "Naruto") bodyNoMean).external_average_rating = q) ∧
    (((data0 bodyNoMean).getKey "popularity").bind Json.asI64 = none →
      (extractMetrics (rustTrim "Naruto") bodyNoMean).external_popularity_rank = 0) ∧
    (∀ i, ((data0 bodyNoMean).getKey "popularity").bind Json.asI64 = some i →
      (extractMetrics (rustTrim "Naruto") bodyNoMean).external_popularity_rank = i) ∧
    (((data0 bodyNoMean).getKey "num_list_users").bind Json.asI64 = none →
      (extractMetrics (rustTrim "Naruto") bodyNoMean).external_member_count = 0) ∧
    (∀ i, ((data0 bodyNoMean).getKey "num_list_users").bind Json.asI64 = some i →
      (extractMetrics (rustTrim "Naruto") bodyNoMean).external_member_count = i)) :=
  ⟨by rfl, by rfl, by rfl,
   C6_per_field_defaulting stateC envNoMean 1000000 [] reqNaruto 200 bodyNoMean
     (by rfl) (by rfl) (by rfl)⟩

/-- C7: Refresh after TTL. If a call succeeds at time now1 (its envelope and
the cache entry it leaves both carrying timestamps not in the future, as on
any real clock), more than TTL seconds pass, and a second call for a query
with the same key succeeds at time now2, then the second call performed a
fresh upstream fetch and signing, and its envelope carries timestamp now2,
strictly greater than the first envelope's timestamp. -/
theorem C7_refresh_after_ttl (state : AppState) (env1 env2 : Env) (now1 now2 : Nat)
    (cache : Cache) (q : ProcessDataRequest MyAnimeRequest)
    (s1 s2 : ProcessedDataResponse (IntentMessage MyMetrics)) (ts1 : Nat) (v1 : Json)
    (h1 : (process_data state env1 now1 cache q).output = .ok s1)
    (hget : (process_data state env1 now1 cache q).cache.get (cache_key q.payload.name)
              = some (ts1, v1))
    (hts : ts1 ≤ now1 / 1000)
    (htm : s1.response.timestamp_ms ≤ now1)
    (helapsed : now1 + CACHE_TTL_SECS * 1000 < now2)
    (h2 : (process_data state env2 now2 (process_data state env1 now1 cache q).cache q).output
            = .ok s2) :
    (process_data state env2 now2 (process_data state env1 now1 cache q).cache q).fetched
      = true ∧
    (process_data state env2 now2 (process_data state env1 now1 cache q).cache q).didSign
      = true ∧
    s2.response.timestamp_ms = now2 ∧
    s1.response.timestamp_ms < s2.response.timestamp_ms := by
  obtain ⟨hne, _⟩ := output_ok_entry state env1 now1 cache q h1
  have hdiv : (now1 + CACHE_TTL_SECS * 1000) / 1000 = now1 / 1000 + CACHE_TTL_SECS :=
    Nat.add_mul_div_right now1 CACHE_TTL_SECS (by norm_num)
  have hstale : ts1 + CACHE_TTL_SECS ≤ now2 / 1000 := by
    have hmono : (now1 + CACHE_TTL_SECS * 1000) / 1000 ≤ now2 / 1000 :=
      Nat.div_le_div_right (Nat.le_of_lt helapsed)
    rw [hdiv] at hmono
    omega
  have hl : freshLookup (process_data state env1 now1 cache q).cache
      (cache_key q.payload.name) (now2 / 1000) = none :=
    freshLookup_stale hget hstale
  rw [process_data_toFetch state env2 now2 _ q hne hl] at h2 ⊢
  obtain ⟨status, body, _, _, _, hs2, heq⟩ :=
    fetchAndSign_ok_inv state env2 now2 _ _ _ h2
  rw [heq]
  refine ⟨rfl, rfl, ?_, ?_⟩
  · rw [hs2]; rfl
  · rw [hs2]
    have : now1 < now2 := by
      have : CACHE_TTL_SECS * 1000 = 300000 := by norm_num [CACHE_TTL_SECS]
      omega
    exact Nat.lt_of_le_of_lt htm this

theorem C7_refresh_after_ttl_witness :
    (process_data stateC envFetchOk 1000000 [] reqNaruto).output = .ok envelopeNaruto ∧
    (process_data stateC envFetchOk 1000000 [] reqNaruto).cache.get (cache_key "Naruto")
      = some (1000, serializeResponse envelopeNaruto) ∧
    1000 ≤ 1000000 / 1000 ∧
    envelopeNaruto.response.timestamp_ms ≤ 1000000 ∧
    1000000 + CACHE_TTL_SECS * 1000 < 1300001 ∧
    (process_data stateC envNoData 1300001
      (process_data stateC envFetchOk 1000000 [] reqNaruto).cache reqNaruto).output =
      .ok (to_signed_response 7 ⟨"", 0, 0, 0, "Naruto"⟩ 1300001 .ProcessData) ∧
    ((process_data stateC envNoData 1300001
        (process_data stateC envFetchOk 1000000 [] reqNaruto).cache reqNaruto).fetched = true ∧
     (process_data stateC envNoData 1300001
        (process_data stateC envFetchOk 1000000 [] reqNaruto).cache reqNaruto).didSign = true ∧
     (to_signed_response 7 (⟨"", 0, 0, 0, "Naruto"⟩ : MyMetrics) 1300001
        .ProcessData).response.timestamp_ms = 1300001 ∧
     envelopeNaruto.response.timestamp_ms <
       (to_signed_response 7 (⟨"", 0, 0, 0, "Naruto"⟩ : MyMetrics) 1300001
          .ProcessData).response.timestamp_ms) :=
  ⟨by rfl, by rfl, by decide, by decide, by decide, by rfl,
   C7_refresh_after_ttl stateC envFetchOk envNoData 1000000 1300001 [] reqNaruto
     envelopeNaruto
     (to_signed_response 7 ⟨"", 0, 0, 0, "Naruto"⟩ 1300001 .ProcessData)
     1000 (serializeResponse envelopeNaruto)
     (by rfl) (by rfl) (by decide) (by decide) (by decide) (by rfl)⟩

/-- C8: Signature binds the full intent. On every successful fresh fetch the
envelope's signature is the enclave signature over the canonical
serialization of the complete IntentMessage — scope, timestamp and payload
together, never the payload alone — where the scope is the fixed ProcessData
scope and the timestamp is the wall-clock milliseconds at signing. -/
theorem C8_signature_binds_full_intent (state : AppState) (env : Env) (nowMs : Nat)
    (cache : Cache) (request : ProcessDataRequest MyAnimeRequest)
    (s : ProcessedDataResponse (IntentMessage MyMetrics))
    (hsig : (process_data state env nowMs cache request).didSign = true)
    (ho : (process_data state env nowMs cache request).output = .ok s) :
    s.signature = signBytes state.eph_kp (serializeIntentMessage s.response) ∧
    s.response.intent = .ProcessData ∧
    s.response.timestamp_ms = nowMs := by
  obtain ⟨status, body, _, _, _, _, _, heq⟩ :=
    didSign_true_inv state env nowMs cache request hsig
  rw [heq] at ho
  simp only [Except.ok.injEq] at ho
  subst ho
  exact ⟨rfl, rfl, rfl⟩

theorem C8_signature_binds_full_intent_witness :
    (process_data stateC envFetchOk 1000000 [] reqNaruto).didSign = true ∧
    (process_data stateC envFetchOk 1000000 [] reqNaruto).output = .ok envelopeNaruto ∧
    (envelopeNaruto.signature =
       signBytes 7 (serializeIntentMessage envelopeNaruto.response) ∧
     envelopeNaruto.response.intent = .ProcessData ∧
     envelopeNaruto.response.timestamp_ms = 1000000) :=
  ⟨by rfl, by rfl,
   C8_signature_binds_full_intent stateC envFetchOk 1000000 [] reqNaruto
     envelopeNaruto (by rfl) (by rfl)⟩

/-- C9 counterexample: the claim that the returned queried_name equals the
trimmed AND lower-cased query fails on the code: a successful call for
"Naruto" returns an envelope whose queried_name is "Naruto", while the
normalized (trimmed, lower-cased) query is "naruto". -/
theorem C9_counterexample :
    queriedNameOf (process_data stateC envFetchOk 1000000 [] reqNaruto) = some "Naruto" ∧
    rustLower (rustTrim reqNaruto.payload.name) = "naruto" ∧
    queriedNameOf (process_data stateC envFetchOk 1000000 [] reqNaruto) ≠
      some (rustLower (rustTrim reqNaruto.payload.name)) := by
  refine ⟨by rfl, by rfl, ?_⟩
  intro h
  rw [show queriedNameOf (process_data stateC envFetchOk 1000000 [] reqNaruto)
        = some "Naruto" from rfl,
    show rustLower (rustTrim reqNaruto.payload.name) = "naruto" from rfl] at h
  simp only [Option.some.injEq] at h
  exact absurd h (by decide)

/-- C9 amended: for every call that succeeds via a fresh fetch, the returned
MetricRecord's queried_name equals the caller's raw query after trimming
only — the code does not lower-case it (lower-casing enters only the cache
key); on a cache hit the envelope is returned verbatim from the cache, so its
queried_name is the trimmed query of the call that originally inserted it. -/
theorem C9_queried_name_trimmed (state : AppState) (env : Env) (nowMs : Nat)
    (cache : Cache) (request : ProcessDataRequest MyAnimeRequest)
    (s : ProcessedDataResponse (IntentMessage MyMetrics))
    (hsig : (process_data state env nowMs cache request).didSign = true)
    (ho : (process_data state env nowMs cache request).output = .ok s) :
    s.response.data.queried_name = rustTrim request.payload.name := by
  obtain ⟨status, body, _, _, _, _, _, heq⟩ :=
    didSign_true_inv state env nowMs cache request hsig
  rw [heq] at ho
  simp only [Except.ok.injEq] at ho
  subst ho
  rfl

theorem C9_queried_name_trimmed_witness :
    (process_data stateC envFetchOk 1000000 [] ⟨⟨" Naruto "⟩⟩).didSign = true ∧
    (process_data stateC envFetchOk 1000000 [] ⟨⟨" Naruto "⟩⟩).output =
      .ok (to_signed_response 7 metricsNaruto 1000000 .ProcessData) ∧
    (to_signed_response 7 metricsNaruto 1000000
      .ProcessData).response.data.queried_name = rustTrim " Naruto " :=
  ⟨by rfl, by rfl,
   C9_queried_name_trimmed stateC envFetchOk 1000000 [] ⟨⟨" Naruto "⟩⟩
     (to_signed_response 7 metricsNaruto 1000000 .ProcessData) (by rfl) (by rfl)⟩

/-- C10: No not-found error at the interface. Whenever a call reaches the
fetch, the upstream answers with a success status and a parseable JSON body,
and the body has no data array, an empty one, or no node under its first
element, the call still succeeds: it returns — and caches under the request's
key — a signed envelope whose MetricRecord carries every external field at
its zero default (empty title, rating 0, rank 0, member count 0). -/
theorem C10_no_not_found_error (state : AppState) (env : Env) (nowMs : Nat)
    (cache : Cache) (request : ProcessDataRequest MyAnimeRequest)
    (status : Nat) (body : Json)
    (hf : (process_data state env nowMs cache request).fetched = true)
    (hup : env.upstream = .response status (some body))
    (hst : statusIsSuccess status = true)
    (hnode : (((body.getKey "data").bind (fun d => d.getIdx 0)).bind
                (fun n => n.getKey "node")) = none) :
    (process_data state env nowMs cache request).output =
      .ok (to_signed_response state.eph_kp
            ⟨"", 0, 0, 0, rustTrim request.payload.name⟩ nowMs .ProcessData) ∧
    (process_data state env nowMs cache request).cache.get
        (cache_key request.payload.name) =
      some (nowMs / 1000,
        serializeResponse (to_signed_response state.eph_kp
          ⟨"", 0, 0, 0, rustTrim request.payload.name⟩ nowMs .ProcessData)) := by
  obtain ⟨hne, hl, hurl⟩ := fetched_true_inv state env nowMs cache request hf
  have hd0 : data0 body = .null := by
    unfold data0
    rw [hnode]
    rfl
  have hm : extractMetrics (rustTrim request.payload.name) body =
      ⟨"", 0, 0, 0, rustTrim request.payload.name⟩ := by
    unfold extractMetrics
    rw [hd0]
    rfl
  rw [process_data_toFetch state env nowMs cache request hne hl,
    fetchAndSign_success state env nowMs cache _ _ hurl hup hst, hm]
  exact ⟨rfl, Cache.get_insert_self _ _ _⟩

theorem C10_no_not_found_error_witness :
    (process_data stateC envNoData 1000000 [] reqNaruto).fetched = true ∧
    envNoData.upstream = .response 200 (some bodyNoData) ∧
    statusIsSuccess 200 = true ∧
    (((bodyNoData.getKey "data").bind (fun d => d.getIdx 0)).bind
       (fun n => n.getKey "node")) = none ∧
    ((process_data stateC envNoData 1000000 [] reqNaruto).output =
      .ok (to_signed_response 7 ⟨"", 0, 0, 0, rustTrim "Naruto"⟩ 1000000 .ProcessData) ∧
     (process_data stateC envNoData 1000000 [] reqNaruto).cache.get (cache_key "Naruto") =
      some (1000000 / 1000,
        serializeResponse (to_signed_response 7
          ⟨"", 0, 0, 0, rustTrim "Naruto"⟩ 1000000 .ProcessData))) :=
  ⟨by rfl, by rfl, by rfl, by rfl,
   C10_no_not_found_error stateC envNoData 1000000 [] reqNaruto 200 bodyNoData
     (by rfl) (by rfl) (by rfl) (by rfl)⟩

end MalOracle
